import Mathlib

/-!
Verification of the cluster lifecycle orchestrator in spark_ec2.py.

Shallow embedding: each definition below transcribes one function (or one
self-contained phase of a function) of the source file.  Provider state
(instances, reservations, security groups, spot requests, HTTP responses)
is passed explicitly as data; side effects (API calls, prints, process
exit) are recorded as event lists or outcome values.  Python integers are
modelled with Int (floor division and sign-of-divisor modulus via
Int.fdiv and Int.fmod) or with Nat where the source value is a count.
-/

namespace SparkEc2

/-- Embedding of get_partition (source lines 717-721).  Python 2 integer
division is floor division and the modulus takes the sign of the divisor,
which is exactly Int.fdiv and Int.fmod. -/
def get_partition (total num_partitions current_partitions : Int) : Int :=
  let num_slaves_this_zone := Int.fdiv total num_partitions
  if Int.fmod total num_partitions - current_partitions > 0 then
    num_slaves_this_zone + 1
  else
    num_slaves_this_zone

/-- A provider-side compute instance as the orchestrator sees it through
boto: a lifecycle state string and an optional tag dictionary (None models
an instance object without a tags attribute).  The iid field only serves
to tell instances apart. -/
structure Instance where
  iid : Nat
  state : String
  tags : Option (List (String × String))
deriving DecidableEq

/-- A reservation groups the instances returned by one launch request;
get_existing_cluster iterates over reservations, not over instances. -/
structure Reservation where
  instances : List Instance
deriving DecidableEq

/-- Embedding of is_active (source lines 166-167). -/
def is_active (inst : Instance) : Bool :=
  ["pending", "running", "stopping", "stopped"].contains inst.state

/-- One step of the tag-classification loop of get_existing_cluster
(source lines 373-382): check the tag dictionary for cluster and type
keys, compare the cluster tag with the requested name, and append the
instance to the master, slave or zoo bucket according to its type tag. -/
def bucket_step (cluster_name : String)
    (acc : List Instance × List Instance × List Instance) (inst : Instance) :
    List Instance × List Instance × List Instance :=
  match inst.tags with
  | none => acc
  | some ts =>
    match ts.lookup "cluster", ts.lookup "type" with
    | some c, some ty =>
      if c = cluster_name then
        if ty = "master" then (acc.1 ++ [inst], acc.2.1, acc.2.2)
        else if ty = "slave" then (acc.1, acc.2.1 ++ [inst], acc.2.2)
        else if ty = "zoo" then (acc.1, acc.2.1, acc.2.2 ++ [inst])
        else acc
      else acc
    | _, _ => acc

/-- The inner instance loop of get_existing_cluster over one reservation. -/
def tag_bucket (cluster_name : String) (insts : List Instance)
    (acc : List Instance × List Instance × List Instance) :
    List Instance × List Instance × List Instance :=
  insts.foldl (bucket_step cluster_name) acc

/-- The outer reservation loop of get_existing_cluster (source lines
370-382): a reservation contributes its instances only when at least one
of its instances is in an active state. -/
def reservation_step (cluster_name : String)
    (acc : List Instance × List Instance × List Instance) (res : Reservation) :
    List Instance × List Instance × List Instance :=
  if 0 < (res.instances.filter is_active).length then
    tag_bucket cluster_name res.instances acc
  else acc

def collect_groups (reservations : List Reservation) (cluster_name : String) :
    List Instance × List Instance × List Instance :=
  reservations.foldl (reservation_step cluster_name) ([], [], [])

/-- Embedding of get_existing_cluster (source lines 364-396).  The
Except.error value models the sys.exit(1) taken when die_on_error is set
and the discovered cluster has no master or no slaves. -/
def get_existing_cluster (reservations : List Reservation)
    (cluster_name : String) (die_on_error : Bool) :
    Except Unit (List Instance × List Instance × List Instance) :=
  if ((collect_groups reservations cluster_name).1 ≠ [] ∧
      (collect_groups reservations cluster_name).2.1 ≠ []) ∨
      die_on_error = false then
    Except.ok (collect_groups reservations cluster_name)
  else
    Except.error ()

/-- One ingress rule of a security group: protocol, port range and the
set of grants (source groups or CIDR blocks), as boto exposes it. -/
structure SgRule where
  ip_protocol : String
  from_port : Nat
  to_port : Nat
  grants : List String
deriving DecidableEq

/-- A provider-side security group: a name and its current rule set. -/
structure SecGroup where
  name : String
  rules : List SgRule
deriving DecidableEq

/-- Embedding of get_or_make_group (source lines 141-148): return the
first group of the account with the requested name, or a freshly created
group, which carries an empty rule set. -/
def get_or_make_group (groups : List SecGroup) (name : String) : SecGroup :=
  match groups.filter (fun g => g.name == name) with
  | g :: _ => g
  | [] => ⟨name, []⟩

/-- One authorize call recorded during security-group provisioning:
either an intra-cluster trust rule naming a source group, or a port-range
rule with a CIDR block.  The first field is always the group the call is
issued on. -/
inductive AuthCall where
  | src (target source : String)
  | port (target proto : String) (from_port to_port : Nat) (cidr : String)
deriving DecidableEq

def authTarget : AuthCall → String
  | AuthCall.src t _ => t
  | AuthCall.port t _ _ _ _ => t

/-- Embedding of the security-group provisioning phase of launch_cluster
(source lines 176-213): fetch or create the three groups, then authorize
the full rule set of each group whose current rule set is empty.  The
returned list records every authorize call issued, in order. -/
def launch_cluster_auth (groups : List SecGroup) (ganglia : Bool) :
    List AuthCall :=
  let master_group := get_or_make_group groups "ampcamp3-master"
  let slave_group := get_or_make_group groups "ampcamp3-slaves"
  let zoo_group := get_or_make_group groups "ampcamp3-zoo"
  (if master_group.rules = [] then
    [AuthCall.src master_group.name master_group.name,
     AuthCall.src master_group.name slave_group.name,
     AuthCall.src master_group.name zoo_group.name,
     AuthCall.port master_group.name "tcp" 22 22 "0.0.0.0/0",
     AuthCall.port master_group.name "tcp" 8080 8081 "0.0.0.0/0",
     AuthCall.port master_group.name "tcp" 50030 50030 "0.0.0.0/0",
     AuthCall.port master_group.name "tcp" 50070 50070 "0.0.0.0/0",
     AuthCall.port master_group.name "tcp" 60070 60070 "0.0.0.0/0",
     AuthCall.port master_group.name "tcp" 33000 33010 "0.0.0.0/0",
     AuthCall.port master_group.name "tcp" 3030 3040 "0.0.0.0/0",
     AuthCall.port master_group.name "tcp" 5050 5050 "0.0.0.0/0",
     AuthCall.port master_group.name "tcp" 38090 38090 "0.0.0.0/0"] ++
    (if ganglia = true then
      [AuthCall.port master_group.name "tcp" 5080 5080 "0.0.0.0/0"]
     else [])
   else []) ++
  (if slave_group.rules = [] then
    [AuthCall.src slave_group.name master_group.name,
     AuthCall.src slave_group.name slave_group.name,
     AuthCall.src slave_group.name zoo_group.name,
     AuthCall.port slave_group.name "tcp" 22 22 "0.0.0.0/0",
     AuthCall.port slave_group.name "tcp" 8080 8081 "0.0.0.0/0",
     AuthCall.port slave_group.name "tcp" 50060 50060 "0.0.0.0/0",
     AuthCall.port slave_group.name "tcp" 50075 50075 "0.0.0.0/0",
     AuthCall.port slave_group.name "tcp" 60060 60060 "0.0.0.0/0",
     AuthCall.port slave_group.name "tcp" 60075 60075 "0.0.0.0/0",
     AuthCall.port slave_group.name "tcp" 5051 5051 "0.0.0.0/0"]
   else []) ++
  (if zoo_group.rules = [] then
    [AuthCall.src zoo_group.name master_group.name,
     AuthCall.src zoo_group.name slave_group.name,
     AuthCall.src zoo_group.name zoo_group.name,
     AuthCall.port zoo_group.name "tcp" 22 22 "0.0.0.0/0",
     AuthCall.port zoo_group.name "tcp" 2181 2181 "0.0.0.0/0",
     AuthCall.port zoo_group.name "tcp" 2888 2888 "0.0.0.0/0",
     AuthCall.port zoo_group.name "tcp" 3888 3888 "0.0.0.0/0"]
   else [])

/-- The authorize calls of a provisioning run that are issued on the group
of the given name. -/
def auth_calls_for (calls : List AuthCall) (name : String) : List AuthCall :=
  calls.filter (fun c => authTarget c == name)

/-- Membership in any of the three role buckets. -/
def memAny (p : List Instance × List Instance × List Instance)
    (x : Instance) : Prop :=
  x ∈ p.1 ∨ x ∈ p.2.1 ∨ x ∈ p.2.2

/-- A running, tagged slave of cluster c. -/
def exActive : Instance := ⟨0, "running", some [("cluster", "c"), ("type", "slave")]⟩

/-- A terminated, tagged slave of cluster c sharing a reservation with
exActive. -/
def exTerminated : Instance :=
  ⟨1, "terminated", some [("cluster", "c"), ("type", "slave")]⟩

def exReservations : List Reservation := [⟨[exActive, exTerminated]⟩]

/-- A spot instance request as returned by the provider: request id,
lifecycle state and the id of the instance granted to it (meaningful when
the state is active). -/
structure SpotReq where
  id : String
  state : String
  instance_id : String
deriving DecidableEq

/-- The id_to_req dictionary of the spot polling loop (source lines
277-279): built by iterating over all requests, so a later entry with the
same id overwrites an earlier one. -/
def id_to_req (reqs : List SpotReq) (i : String) : Option SpotReq :=
  reqs.foldl (fun acc r => if r.id == i then some r else acc) none

/-- The active_instance_ids computation of one polling iteration (source
lines 280-283): the instance ids of the requests of this batch that have
reached the active state. -/
def active_instance_ids (reqs : List SpotReq) (my_req_ids : List String) :
    List String :=
  my_req_ids.foldl (fun acc i =>
    match id_to_req reqs i with
    | some r => if r.state = "active" then acc ++ [r.instance_id] else acc
    | none => acc) []

/-- Provider and console effects of the spot interrupt handler. -/
inductive SpotEvt where
  | cancel (ids : List String)
  | warn (running : Nat)
deriving DecidableEq

/-- How an invocation ends: a clean process exit with a code, or an
uncaught exception. -/
inductive ProcOutcome where
  | exit (code : Nat)
  | raised
deriving DecidableEq

def isCancelEvt : SpotEvt → Bool
  | SpotEvt.cancel _ => true
  | SpotEvt.warn _ => false

/-- The running count computed by the interrupt handler (source lines
298-300): the total size of the tag-discovered role groups. -/
def discovered_running (reservations : List Reservation)
    (cluster_name : String) : Nat :=
  match get_existing_cluster reservations cluster_name false with
  | Except.ok (m, s, z) => m.length + s.length + z.length
  | Except.error _ => 0

/-- Embedding of the except branch of the spot polling loop (source lines
294-303): cancel the whole batch of request ids, warn with the discovered
running count when it is non-zero, and exit with code 0. -/
def spot_interrupt_handler (my_req_ids : List String)
    (reservations : List Reservation) (cluster_name : String) :
    List SpotEvt × ProcOutcome :=
  let running := discovered_running reservations cluster_name
  ([SpotEvt.cancel my_req_ids] ++
    (if running ≠ 0 then [SpotEvt.warn running] else []),
   ProcOutcome.exit 0)

/-- A batch with one spot request that is active (granted) with an
instance that carries no tags yet. -/
def exSpotReqs : List SpotReq := [⟨"r1", "active", "i-1"⟩]

/-- The provider snapshot at interrupt time for the granted request: the
granted instance is running but not yet tagged. -/
def exSpotSnap : List Reservation := [⟨[⟨7, "running", none⟩]⟩]

/-- A snapshot holding one running instance tagged as master of cluster
d. -/
def exTaggedSnap : List Reservation :=
  [⟨[⟨3, "running", some [("cluster", "d"), ("type", "master")]⟩]⟩]

/-- Embedding of the while loop of wait_for_spark_cluster (source lines
726-733).  The check oracle gives the result of the initial health check
(index 0) and of the re-check after the k-th restart cycle (index k).
The result pairs the final err value with the number of restart cycles
performed. -/
def wait_loop (check : Nat → Int) (err : Int) (count : Nat) : Int × Nat :=
  if h : err ≠ 0 ∧ count < 10 then
    wait_loop check (check (count + 1)) (count + 1)
  else
    (err, count)
termination_by 10 - count
decreasing_by omega

/-- Embedding of wait_for_spark_cluster (source lines 723-734): an initial
check followed by up to 10 stop-start-recheck cycles. -/
def wait_for_spark_cluster (check : Nat → Int) : Int × Nat :=
  wait_loop check (check 0) 0

/-- The double-brace placeholder text built for a template variable key
at source line 674. -/
def placeholderPat (key : List Char) : List Char :=
  '\x7b' :: '\x7b' :: (key ++ ['\x7d', '\x7d'])

/-- Embedding of the Python str.replace call at source line 674: scan the
text left to right, replace each leftmost non-overlapping occurrence of
pat by rep, and keep every other character.  The pat nonempty guard only
serves termination; the placeholder patterns used by the templater are
never empty. -/
def replaceAll : List Char → List Char → List Char → List Char
  | [], _, _ => []
  | c :: rest, pat, rep =>
    if h : pat ≠ [] ∧ pat.isPrefixOf (c :: rest) = true then
      rep ++ replaceAll ((c :: rest).drop pat.length) pat rep
    else
      c :: replaceAll rest pat rep
termination_by s _ _ => s.length
decreasing_by
  · simp only [List.length_drop, List.length_cons]
    have := List.length_pos.mpr h.1
    omega
  · simp only [List.length_cons]
    omega

/-- Embedding of the substitution loop of deploy_files (source lines
673-674): fold the replacement over the variable map in order. -/
def renderText (template_vars : List (List Char × List Char))
    (text : List Char) : List Char :=
  template_vars.foldl
    (fun t kv => replaceAll t (placeholderPat kv.1) kv.2) text

/-- Specification relation for one replacement pass: ReplSpec pat rep s t
holds exactly when t is s with every leftmost, non-overlapping occurrence
of pat replaced by rep, all characters outside those occurrences kept
verbatim. -/
inductive ReplSpec (pat rep : List Char) : List Char → List Char → Prop where
  | nil : ReplSpec pat rep [] []
  | keep (c : Char) (s t : List Char) :
      pat.isPrefixOf (c :: s) = false → ReplSpec pat rep s t →
      ReplSpec pat rep (c :: s) (c :: t)
  | repl (s t : List Char) : ReplSpec pat rep s t →
      ReplSpec pat rep (pat ++ s) (rep ++ t)

/-- Filesystem and process effects of the final steps of deploy_files. -/
inductive DeployEvt where
  | rsync
  | rmtree
deriving DecidableEq

/-- Embedding of the push-and-cleanup tail of deploy_files (source lines
677-682): run the rsync transfer through subprocess.check_call, then
remove the scratch directory with shutil.rmtree.  A failing transfer
raises CalledProcessError; there is no try or finally around the two
statements, so the exception propagates out of deploy_files.  The event
list records the actions performed, the Except value whether the step
returned normally. -/
def deploy_push (transfer_ok : Bool) : List DeployEvt × Except Unit Unit :=
  if transfer_ok then ([DeployEvt.rsync, DeployEvt.rmtree], Except.ok ())
  else ([DeployEvt.rsync], Except.error ())

/-- The provider responses one attempt of the delete-groups loop can
observe: the listed groups, the boolean result of each revoke call and
whether deleting a group succeeds (false models EC2ResponseError). -/
structure DelEnv where
  groups : List SecGroup
  revoke_ok : String → String → Nat → Nat → String → Bool
  delete_ok : String → Bool

/-- The three group names targeted by the destroy action (source line
792). -/
def group_names (cluster_name : String) : List String :=
  [cluster_name ++ "-master", cluster_name ++ "-slaves", cluster_name ++ "-zoo"]

/-- The groups of the account whose name is in the target list (source
line 797). -/
def targeted (env : DelEnv) (names : List String) : List SecGroup :=
  env.groups.filter (fun g => names.contains g.name)

/-- One attempt of the delete-groups loop (source lines 796-825): re-list
the groups, revoke every grant of every rule of every target group
accumulating the boolean revoke results, then try to delete each group, a
failed delete making the attempt unsuccessful. -/
def attempt_success (env : DelEnv) (names : List String) : Bool :=
  let groups := targeted env names
  let success := groups.foldl (fun acc g =>
    g.rules.foldl (fun acc r =>
      r.grants.foldl (fun acc grant =>
        acc && env.revoke_ok g.name r.ip_protocol r.from_port r.to_port grant)
        acc) acc) true
  groups.foldl (fun acc g => acc && env.delete_ok g.name) success

/-- The while loop of the delete-groups phase (source lines 794-825),
with the guard attempt less or equal 3 expressed through the fuel
argument, which counts the attempts still allowed (the loop is entered
with attempt 1 and fuel 3, so fuel equals 4 minus attempt throughout).
Returns the number of the last attempt performed and the success flag. -/
def delete_groups_loop (envs : Nat → DelEnv) (names : List String) :
    Nat → Nat → Nat × Bool
  | attempt, 0 => (attempt - 1, false)
  | attempt, fuel + 1 =>
    if attempt_success (envs attempt) names then (attempt, true)
    else delete_groups_loop envs names (attempt + 1) fuel

/-- Embedding of the delete-groups phase of the destroy action (source
lines 790-829).  The per-attempt provider snapshot and responses are
given by the envs oracle, indexed by attempt number starting at 1. -/
def delete_security_groups (envs : Nat → DelEnv) (cluster_name : String) :
    Nat × Bool :=
  delete_groups_loop envs (group_names cluster_name) 1 3

/-- The operator-visible outcome after the loop (source lines 827-829):
failure messages are printed when unsuccessful, and the destroy action
still finishes normally, with exit code 0. -/
def destroy_groups_report (envs : Nat → DelEnv) (cluster_name : String) :
    List String × ProcOutcome :=
  (if (delete_security_groups envs cluster_name).2 then []
   else ["Failed to delete all security groups after 3 tries.",
         "Try re-running in a few minutes."],
   ProcOutcome.exit 0)

/-- An account with one target group whose deletion always fails. -/
def exDelEnv : DelEnv :=
  ⟨[⟨"c-master", []⟩], fun _ _ _ _ _ => true, fun _ => false⟩

def exEnvs : Nat → DelEnv := fun _ => exDelEnv

/-- The cpus_by_instance table of get_num_cpus (source lines 596-609). -/
def cpus_by_instance : List (String × Nat) :=
  [("m1.small", 1), ("m1.large", 2), ("m1.xlarge", 4), ("t1.micro", 1),
   ("c1.medium", 2), ("c1.xlarge", 8), ("m2.xlarge", 2), ("m2.2xlarge", 4),
   ("m2.4xlarge", 8), ("cc1.4xlarge", 8), ("cc2.8xlarge", 16),
   ("cg1.4xlarge", 8)]

/-- Embedding of get_num_cpus (source lines 594-615): the core count for
the instance type, with a flag set when the type is unknown, a warning is
printed and the fallback value 2 is used. -/
def get_num_cpus (instance_type : String) : Nat × Bool :=
  match cpus_by_instance.lookup instance_type with
  | some n => (n, false)
  | none => (2, true)

/-- The expected core count computed by check_spark_json (source lines
437-438). -/
def expected_num_cpus (instance_type : String) (slaves : Nat) : Nat :=
  (get_num_cpus instance_type).1 * slaves

/-- The Python exception classes relevant to the health check. -/
inductive PyExc where
  | nameError
  | valueError
  | typeError
  | urlError
deriving DecidableEq

/-- The value found under the cores key of a parsed JSON document: a
numeric value, or a non-numeric one on which int() raises ValueError. -/
inductive JVal where
  | num (n : Int)
  | nonNumeric
deriving DecidableEq

/-- Result of json.loads on the response body: a parse failure, which
raises ValueError, or an object with an optional cores field. -/
inductive JsonBody where
  | parseError
  | obj (cores : Option JVal)
deriving DecidableEq

/-- int(x) applied to the result of json_data.get, as at source line 434:
int(None) raises TypeError, int of a non-numeric value raises
ValueError. -/
def pyInt : Option JVal → Except PyExc Int
  | none => Except.error PyExc.typeError
  | some (JVal.num n) => Except.ok n
  | some JVal.nonNumeric => Except.error PyExc.valueError

/-- Embedding of check_spark_json (source lines 431-447): parse the body,
read the cores field, compare with the expected count; exceptions
propagate as Except.error. -/
def check_spark_json (body : JsonBody) (instance_type : String)
    (slaves : Nat) : Except PyExc Int :=
  match body with
  | JsonBody.parseError => Except.error PyExc.valueError
  | JsonBody.obj cores =>
    match pyInt cores with
    | Except.error e => Except.error e
    | Except.ok got =>
      if got = (expected_num_cpus instance_type slaves : Int) then Except.ok 0
      else Except.ok (-1)

/-- An HTTP response from the status endpoint of the lead node. -/
structure HttpResponse where
  code : Nat
  body : JsonBody
deriving DecidableEq

/-- The try body of check_spark_cluster (source lines 452-458): urlopen
(None models a connection failure raising URLError), the status-code
check returning -1 on a non-200 code, then check_spark_json. -/
def check_spark_cluster_body (resp : Option HttpResponse)
    (instance_type : String) (slaves : Nat) : Except PyExc Int :=
  match resp with
  | none => Except.error PyExc.urlError
  | some r =>
    if r.code ≠ 200 then Except.ok (-1)
    else check_spark_json r.body instance_type slaves

/-- Embedding of check_spark_cluster (source lines 449-462): the except
clause names only NameError, so only that exception is converted into the
failure value -1; every other exception propagates to the caller. -/
def check_spark_cluster (resp : Option HttpResponse)
    (instance_type : String) (slaves : Nat) : Except PyExc Int :=
  match check_spark_cluster_body resp instance_type slaves with
  | Except.error PyExc.nameError => Except.ok (-1)
  | r => r

theorem ofNat_fmod (m n : Nat) :
    Int.fmod (m : Int) (n : Int) = ((m % n : Nat) : Int) := by
  cases m with
  | zero => simp [Int.fmod]
  | succ k => rfl

theorem get_partition_ofNat (t n i : Nat) :
    get_partition (t : Int) (n : Int) (i : Int) =
      ((t / n + if i < t % n then 1 else 0 : Nat) : Int) := by
  unfold get_partition
  rw [← Int.ofNat_fdiv, ofNat_fmod]
  rcases Nat.lt_or_ge i (t % n) with h | h
  · rw [if_pos (show ((t % n : Nat) : Int) - (i : Int) > 0 by push_cast; omega),
      if_pos h]
    push_cast
    ring
  · rw [if_neg (show ¬(((t % n : Nat) : Int) - (i : Int) > 0) by push_cast; omega),
      if_neg (by omega)]
    push_cast
    ring

theorem sum_ite_lt_nat (n m : Nat) :
    (∑ i in Finset.range n, if i < m then (1 : Nat) else 0) = min m n := by
  induction n with
  | zero => simp
  | succ k ih =>
    rw [Finset.sum_range_succ, ih]
    by_cases h : k < m
    · rw [if_pos h]
      omega
    · rw [if_neg h]
      omega

theorem get_partition_sum_nat (t n : Nat) (hn : 1 ≤ n) :
    (∑ i in Finset.range n, (t / n + if i < t % n then 1 else 0)) = t := by
  rw [Finset.sum_add_distrib, sum_ite_lt_nat, Finset.sum_const, Finset.card_range,
    smul_eq_mul]
  have hlt : t % n < n := Nat.mod_lt _ (by omega)
  have hmin : min (t % n) n = t % n := by omega
  rw [hmin]
  exact Nat.div_add_mod t n

/-- Claim C1: for every total greater or equal 0 and every zoneCount greater
or equal 1, the values of get_partition over all zone indices sum to the
total, and in particular get_partition 5 3 0 = 2, get_partition 5 3 1 = 2,
get_partition 5 3 2 = 1. -/
theorem C1_partition_sum (total zoneCount : Int)
    (h0 : 0 ≤ total) (h1 : 1 ≤ zoneCount) :
    (∑ i in Finset.range zoneCount.toNat,
        get_partition total zoneCount (i : Int)) = total ∧
    get_partition 5 3 0 = 2 ∧ get_partition 5 3 1 = 2 ∧
    get_partition 5 3 2 = 1 := by
  refine ⟨?_, by decide, by decide, by decide⟩
  obtain ⟨t, rfl⟩ := Int.eq_ofNat_of_zero_le h0
  obtain ⟨n, rfl⟩ := Int.eq_ofNat_of_zero_le (by omega : (0:Int) ≤ zoneCount)
  have hn : 1 ≤ n := by exact_mod_cast h1
  have hcast : ∀ i : Nat, get_partition (t : Int) (n : Int) (i : Int) =
      ((t / n + if i < t % n then 1 else 0 : Nat) : Int) :=
    fun i => get_partition_ofNat t n i
  rw [Int.toNat_ofNat]
  calc (∑ i in Finset.range n, get_partition (t : Int) (n : Int) (i : Int))
      = ∑ i in Finset.range n,
          ((t / n + if i < t % n then 1 else 0 : Nat) : Int) := by
        exact Finset.sum_congr rfl (fun i _ => hcast i)
    _ = ((∑ i in Finset.range n,
          (t / n + if i < t % n then 1 else 0) : Nat) : Int) := by
        push_cast
        rfl
    _ = (t : Int) := by
        rw [get_partition_sum_nat t n hn]

/-- Witness for C1 at total = 5, zoneCount = 3. -/
theorem C1_partition_sum_witness :
    (∑ i in Finset.range (3 : Int).toNat,
        get_partition 5 3 (i : Int)) = 5 :=
  (C1_partition_sum 5 3 (by decide) (by decide)).1

theorem bucket_step_mem (cn : String)
    (acc : List Instance × List Instance × List Instance) (inst x : Instance)
    (h : memAny (bucket_step cn acc inst) x) : memAny acc x ∨ x = inst := by
  rcases acc with ⟨ms, ss, zs⟩
  unfold bucket_step at h
  repeat' split at h
  all_goals simp only [memAny, List.mem_append, List.mem_singleton] at h ⊢
  all_goals tauto

theorem tag_bucket_mem (cn : String) :
    ∀ (l : List Instance) (acc : List Instance × List Instance × List Instance)
      (x : Instance), memAny (tag_bucket cn l acc) x → memAny acc x ∨ x ∈ l := by
  intro l
  induction l with
  | nil => intro acc x h; exact Or.inl h
  | cons a l ih =>
    intro acc x h
    have hstep : tag_bucket cn (a :: l) acc =
        tag_bucket cn l (bucket_step cn acc a) := rfl
    rw [hstep] at h
    rcases ih _ x h with h1 | h1
    · rcases bucket_step_mem cn acc a x h1 with h2 | h2
      · exact Or.inl h2
      · exact Or.inr (by rw [h2]; exact List.mem_cons_self a l)
    · exact Or.inr (List.mem_cons_of_mem _ h1)

theorem collect_groups_mem (cn : String) :
    ∀ (rs : List Reservation)
      (acc : List Instance × List Instance × List Instance) (x : Instance),
      memAny (rs.foldl (reservation_step cn) acc) x →
      memAny acc x ∨
        ∃ res ∈ rs, x ∈ res.instances ∧
          ∃ j ∈ res.instances, is_active j = true := by
  intro rs
  induction rs with
  | nil => intro acc x h; exact Or.inl h
  | cons r rs ih =>
    intro acc x h
    have hstep : (r :: rs).foldl (reservation_step cn) acc =
        rs.foldl (reservation_step cn) (reservation_step cn acc r) := rfl
    rw [hstep] at h
    rcases ih _ x h with h1 | h1
    · unfold reservation_step at h1
      by_cases hact : 0 < (r.instances.filter is_active).length
      · rw [if_pos hact] at h1
        rcases tag_bucket_mem cn r.instances acc x h1 with h2 | h2
        · exact Or.inl h2
        · refine Or.inr ⟨r, List.mem_cons_self r rs, h2, ?_⟩
          have hne : r.instances.filter is_active ≠ [] :=
            List.length_pos.mp hact
          obtain ⟨j, hj⟩ := List.exists_mem_of_ne_nil _ hne
          obtain ⟨hj1, hj2⟩ := List.mem_filter.mp hj
          exact ⟨j, hj1, hj2⟩
      · rw [if_neg hact] at h1
        exact Or.inl h1
    · obtain ⟨res, hres, hrest⟩ := h1
      exact Or.inr ⟨res, List.mem_cons_of_mem _ hres, hrest⟩

/-- Counterexample to claim C2 as stated: in a snapshot with a single
reservation holding one running and one terminated instance, both tagged
as slaves of cluster c, discovery returns the terminated instance in the
slave group. -/
theorem C2_counterexample :
    get_existing_cluster exReservations "c" false =
      Except.ok ([], [exActive, exTerminated], []) ∧
    exTerminated.state = "terminated" ∧ is_active exTerminated = false := by
  refine ⟨rfl, rfl, rfl⟩

/-- Claim C2, amended: discovery returns only nodes belonging to a
reservation that contains at least one node in an active lifecycle state;
a terminated or shutting-down node can still appear when it shares its
reservation with an active node. -/
theorem C2_discovery_active (reservations : List Reservation)
    (cluster_name : String) (die_on_error : Bool)
    (groups : List Instance × List Instance × List Instance)
    (hok : get_existing_cluster reservations cluster_name die_on_error =
      Except.ok groups)
    (x : Instance) (hx : memAny groups x) :
    ∃ res ∈ reservations, x ∈ res.instances ∧
      ∃ j ∈ res.instances, is_active j = true := by
  have hgroups : groups = collect_groups reservations cluster_name := by
    unfold get_existing_cluster at hok
    split at hok
    · exact (Except.ok.inj hok).symm
    · simp at hok
  subst hgroups
  rcases collect_groups_mem cluster_name reservations ([], [], []) x hx with h | h
  · rcases h with h | h | h <;> exact absurd h (List.not_mem_nil x)
  · exact h

/-- Witness for C2_discovery_active: the running instance of the concrete
snapshot is discovered and its reservation indeed has an active member. -/
theorem C2_discovery_active_witness :
    ∃ res ∈ exReservations, exActive ∈ res.instances ∧
      ∃ j ∈ res.instances, is_active j = true :=
  C2_discovery_active exReservations "c" false
    ([], [exActive, exTerminated], []) rfl exActive
    (Or.inr (Or.inl (List.mem_cons_self _ _)))

theorem get_or_make_group_name (groups : List SecGroup) (name : String) :
    (get_or_make_group groups name).name = name := by
  unfold get_or_make_group
  rcases hfilter : groups.filter (fun g => g.name == name) with _ | ⟨g, rest⟩
  · simp [hfilter]
  · simp only [hfilter]
    have hg : g ∈ groups.filter (fun g => g.name == name) := by
      rw [hfilter]
      exact List.mem_cons_self _ _
    exact eq_of_beq (List.mem_filter.mp hg).2

/-- Claim C3: for each of the three security groups, authorize calls are
issued for the group if and only if its rule set is empty at the moment
of check; a group with a non-empty rule set receives no authorize call. -/
theorem C3_security_group_gate (groups : List SecGroup) (ganglia : Bool)
    (name : String)
    (hname : name ∈ ["ampcamp3-master", "ampcamp3-slaves", "ampcamp3-zoo"]) :
    auth_calls_for (launch_cluster_auth groups ganglia) name ≠ [] ↔
      (get_or_make_group groups name).rules = [] := by
  have hm := get_or_make_group_name groups "ampcamp3-master"
  have hs := get_or_make_group_name groups "ampcamp3-slaves"
  have hz := get_or_make_group_name groups "ampcamp3-zoo"
  simp only [List.mem_cons, List.not_mem_nil, or_false] at hname
  by_cases hA : (get_or_make_group groups "ampcamp3-master").rules = [] <;>
    by_cases hB : (get_or_make_group groups "ampcamp3-slaves").rules = [] <;>
    by_cases hC : (get_or_make_group groups "ampcamp3-zoo").rules = [] <;>
    by_cases hg : ganglia = true <;>
    rcases hname with rfl | rfl | rfl <;>
    simp_all [launch_cluster_auth, auth_calls_for, authTarget]

/-- Witness for C3_security_group_gate: with an empty provider account the
master group is freshly created, so authorize calls are issued on it. -/
theorem C3_security_group_gate_witness :
    auth_calls_for (launch_cluster_auth [] true) "ampcamp3-master" ≠ [] :=
  (C3_security_group_gate [] true "ampcamp3-master" (by simp)).mpr rfl

/-- Counterexample to claim C4 as stated: one spot request of the batch is
active, so one instance was already granted, but the granted instance is
not yet tagged, so discovery reports zero running instances and no warning
carrying the granted count is emitted. -/
theorem C4_counterexample :
    (active_instance_ids exSpotReqs ["r1"]).length = 1 ∧
    spot_interrupt_handler ["r1"] exSpotSnap "c" =
      ([SpotEvt.cancel ["r1"]], ProcOutcome.exit 0) ∧
    SpotEvt.warn 1 ∉ (spot_interrupt_handler ["r1"] exSpotSnap "c").1 := by
  refine ⟨rfl, rfl, by decide⟩

/-- Claim C4, amended: on interrupt, a cancel is issued exactly once and
covers every request id of the batch, the launcher exits with code 0
rather than raising, and a non-fatal warning reports the number of active
tagged cluster instances found by discovery whenever that number is
non-zero (granted but not yet tagged instances are not counted). -/
theorem C4_spot_interrupt (my_req_ids : List String)
    (reservations : List Reservation) (cluster_name : String) :
    ((spot_interrupt_handler my_req_ids reservations cluster_name).1.filter
        isCancelEvt = [SpotEvt.cancel my_req_ids]) ∧
    (spot_interrupt_handler my_req_ids reservations cluster_name).2 =
      ProcOutcome.exit 0 ∧
    (discovered_running reservations cluster_name ≠ 0 →
      SpotEvt.warn (discovered_running reservations cluster_name) ∈
        (spot_interrupt_handler my_req_ids reservations cluster_name).1) := by
  unfold spot_interrupt_handler
  by_cases h : discovered_running reservations cluster_name ≠ 0 <;>
    simp [h, isCancelEvt]

/-- Witness for C4_spot_interrupt on a snapshot with one tagged running
instance: the warning reports the discovered count. -/
theorem C4_spot_interrupt_witness :
    SpotEvt.warn (discovered_running exTaggedSnap "d") ∈
      (spot_interrupt_handler ["r1"] exTaggedSnap "d").1 :=
  (C4_spot_interrupt ["r1"] exTaggedSnap "d").2.2 (by decide)

theorem wait_loop_count_le (check : Nat → Int) :
    ∀ (n count : Nat) (err : Int), 10 - count ≤ n → count ≤ 10 →
      (wait_loop check err count).2 ≤ 10 := by
  intro n
  induction n with
  | zero =>
    intro count err hfuel hc
    unfold wait_loop
    rw [dif_neg (by omega)]
    exact hc
  | succ k ih =>
    intro count err hfuel hc
    unfold wait_loop
    by_cases h : err ≠ 0 ∧ count < 10
    · rw [dif_pos h]
      exact ih (count + 1) _ (by omega) (by omega)
    · rw [dif_neg h]
      exact hc

theorem wait_loop_fail (check : Nat → Int) (hall : ∀ k, check k ≠ 0) :
    ∀ (n count : Nat) (err : Int), 10 - count ≤ n → err ≠ 0 →
      (wait_loop check err count).1 ≠ 0 := by
  intro n
  induction n with
  | zero =>
    intro count err hfuel herr
    unfold wait_loop
    rw [dif_neg (by omega)]
    exact herr
  | succ k ih =>
    intro count err hfuel herr
    unfold wait_loop
    by_cases h : err ≠ 0 ∧ count < 10
    · rw [dif_pos h]
      exact ih (count + 1) _ (by omega) (hall (count + 1))
    · rw [dif_neg h]
      exact herr

/-- Claim C5: the health convergence loop performs at most 10 restart
cycles regardless of the observed check results, and when no check ever
succeeds it returns a non-zero failure value to its caller (the function
is total, so no exception is involved). -/
theorem C5_health_loop (check : Nat → Int) :
    (wait_for_spark_cluster check).2 ≤ 10 ∧
    ((∀ k, check k ≠ 0) → (wait_for_spark_cluster check).1 ≠ 0) := by
  constructor
  · exact wait_loop_count_le check 10 0 (check 0) (by omega) (by omega)
  · intro hall
    exact wait_loop_fail check hall 10 0 (check 0) (by omega) (hall 0)

/-- Witness for C5_health_loop with a check oracle that always reports the
failure value -1. -/
theorem C5_health_loop_witness :
    (wait_for_spark_cluster (fun _ => -1)).1 ≠ 0 :=
  (C5_health_loop (fun _ => -1)).2 (fun _ => by decide)

theorem placeholderPat_ne_nil (key : List Char) : placeholderPat key ≠ [] := by
  simp [placeholderPat]

theorem replaceAll_spec_aux (pat rep : List Char) (hpat : pat ≠ []) :
    ∀ (n : Nat) (s : List Char), s.length ≤ n →
      ReplSpec pat rep s (replaceAll s pat rep) := by
  intro n
  induction n with
  | zero =>
    intro s hlen
    have hs : s = [] := List.length_eq_zero.mp (by omega)
    subst hs
    rw [replaceAll]
    exact ReplSpec.nil
  | succ k ih =>
    intro s hlen
    rcases s with _ | ⟨c, rest⟩
    · rw [replaceAll]
      exact ReplSpec.nil
    · rw [replaceAll]
      by_cases h : pat ≠ [] ∧ pat.isPrefixOf (c :: rest) = true
      · rw [dif_pos h]
        have hpre : pat <+: c :: rest := List.isPrefixOf_iff_prefix.mp h.2
        obtain ⟨t, ht⟩ := hpre
        have hdrop : (c :: rest).drop pat.length = t := by
          rw [← ht]
          exact List.drop_left pat t
        rw [hdrop, ← ht]
        have hl : pat.length + t.length = rest.length + 1 := by
          have := congrArg List.length ht
          simpa using this
        have hp1 : 0 < pat.length := List.length_pos.mpr hpat
        exact ReplSpec.repl t _ (ih t (by simp at hlen; omega))
      · rw [dif_neg h]
        have hx : ¬ pat.isPrefixOf (c :: rest) = true := fun hx => h ⟨hpat, hx⟩
        have hx2 : pat.isPrefixOf (c :: rest) = false := by
          revert hx
          cases pat.isPrefixOf (c :: rest) <;> simp
        exact ReplSpec.keep c rest _ hx2 (ih rest (by simp at hlen; omega))

theorem replaceAll_not_infix_aux (pat rep : List Char) :
    ∀ (n : Nat) (s : List Char), s.length ≤ n → ¬ pat <:+: s →
      replaceAll s pat rep = s := by
  intro n
  induction n with
  | zero =>
    intro s hlen hinf
    have hs : s = [] := List.length_eq_zero.mp (by omega)
    subst hs
    rw [replaceAll]
  | succ k ih =>
    intro s hlen hinf
    rcases s with _ | ⟨c, rest⟩
    · rw [replaceAll]
    · rw [replaceAll]
      have hnp : ¬ (pat ≠ [] ∧ pat.isPrefixOf (c :: rest) = true) := by
        rintro ⟨hne, hpre⟩
        exact hinf (List.isPrefixOf_iff_prefix.mp hpre).isInfix
      rw [dif_neg hnp]
      have hrest : replaceAll rest pat rep = rest :=
        ih rest (by simp at hlen; omega)
          (fun hi => hinf (List.infix_cons hi))
      rw [hrest]

theorem renderText_pass :
    ∀ (vars : List (List Char × List Char)) (text : List Char),
      (∀ kv ∈ vars, ¬ placeholderPat kv.1 <:+: text) →
      renderText vars text = text := by
  intro vars
  induction vars with
  | nil =>
    intro text h
    rfl
  | cons kv vars ih =>
    intro text h
    have hstep : replaceAll text (placeholderPat kv.1) kv.2 = text :=
      replaceAll_not_infix_aux (placeholderPat kv.1) kv.2 text.length text
        le_rfl (h kv (List.mem_cons_self _ _))
    have hfold : renderText (kv :: vars) text =
        renderText vars (replaceAll text (placeholderPat kv.1) kv.2) := rfl
    rw [hfold, hstep]
    exact ih text (fun kv2 h2 => h kv2 (List.mem_cons_of_mem _ h2))

/-- Claim C6: each replacement pass of the templater replaces every
leftmost, non-overlapping occurrence of its double-brace placeholder by
the mapped value and keeps all other characters verbatim (the ReplSpec
relation); a text containing no placeholder of the variable map, in
particular one holding only unknown placeholders, passes through the
whole rendering unchanged and without error; and rendering is a pure
function of the variable map and the text. -/
theorem C6_template_rendering :
    (∀ (text : List Char) (kv : List Char × List Char),
      ReplSpec (placeholderPat kv.1) kv.2 text
        (replaceAll text (placeholderPat kv.1) kv.2)) ∧
    (∀ (vars : List (List Char × List Char)) (text : List Char),
      (∀ kv ∈ vars, ¬ placeholderPat kv.1 <:+: text) →
      renderText vars text = text) ∧
    (∀ (v1 v2 : List (List Char × List Char)) (t1 t2 : List Char),
      v1 = v2 → t1 = t2 → renderText v1 t1 = renderText v2 t2) := by
  refine ⟨?_, renderText_pass, ?_⟩
  · intro text kv
    exact replaceAll_spec_aux (placeholderPat kv.1) kv.2
      (placeholderPat_ne_nil kv.1) text.length text le_rfl
  · intro v1 v2 t1 t2 hv ht
    rw [hv, ht]

/-- Witness for C6_template_rendering: a text consisting of the unknown
placeholder u is rendered verbatim under a variable map binding k. -/
theorem C6_template_rendering_witness :
    renderText [(['k'], ['v'])]
        ('\x7b' :: '\x7b' :: 'u' :: '\x7d' :: '\x7d' :: []) =
      '\x7b' :: '\x7b' :: 'u' :: '\x7d' :: '\x7d' :: [] :=
  C6_template_rendering.2.1 [(['k'], ['v'])]
    ('\x7b' :: '\x7b' :: 'u' :: '\x7d' :: '\x7d' :: []) (by decide)

/-- Counterexample to claim C7 as stated: in the execution where the bulk
transfer fails, the exception propagates and the scratch directory is not
removed. -/
theorem C7_counterexample :
    deploy_push false = ([DeployEvt.rsync], Except.error ()) ∧
    DeployEvt.rmtree ∉ (deploy_push false).1 := by
  refine ⟨rfl, by decide⟩

/-- Claim C7, amended: the scratch directory is removed, after the
transfer, in every execution of the deployment step in which the bulk
transfer succeeds; when the transfer fails, the exception propagates and
the removal is skipped. -/
theorem C7_cleanup_on_success (transfer_ok : Bool)
    (h : (deploy_push transfer_ok).2 = Except.ok ()) :
    (deploy_push transfer_ok).1 = [DeployEvt.rsync, DeployEvt.rmtree] := by
  cases transfer_ok
  · simp [deploy_push] at h
  · rfl

/-- Witness for C7_cleanup_on_success at a successful transfer. -/
theorem C7_cleanup_on_success_witness :
    (deploy_push true).1 = [DeployEvt.rsync, DeployEvt.rmtree] :=
  C7_cleanup_on_success true rfl

theorem foldl_and_false {α : Type} (f : α → Bool) :
    ∀ (l : List α), l.foldl (fun acc x => acc && f x) false = false := by
  intro l
  induction l with
  | nil => rfl
  | cons x l ih =>
    simp only [List.foldl_cons, Bool.false_and]
    exact ih

theorem foldl_and_mem {α : Type} (f : α → Bool) :
    ∀ (l : List α) (b : Bool),
      l.foldl (fun acc x => acc && f x) b = true → ∀ x ∈ l, f x = true := by
  intro l
  induction l with
  | nil =>
    intro b h y hy
    exact absurd hy (List.not_mem_nil y)
  | cons x l ih =>
    intro b h y hy
    simp only [List.foldl_cons] at h
    rcases List.mem_cons.mp hy with rfl | hy2
    · by_contra hfx
      have hfx2 : f y = false := by
        revert hfx
        cases f y <;> simp
      rw [hfx2, Bool.and_false, foldl_and_false] at h
      exact Bool.false_ne_true h
    · exact ih (b && f x) h y hy2

theorem attempt_success_deletes (env : DelEnv) (names : List String)
    (h : attempt_success env names = true) :
    ∀ g ∈ targeted env names, env.delete_ok g.name = true := by
  intro g hg
  simp only [attempt_success] at h
  exact foldl_and_mem (fun g => env.delete_ok g.name) (targeted env names) _
    h g hg

theorem delete_groups_loop_le (envs : Nat → DelEnv) (names : List String) :
    ∀ (fuel attempt : Nat),
      (delete_groups_loop envs names attempt fuel).1 ≤ attempt + fuel - 1 := by
  intro fuel
  induction fuel with
  | zero =>
    intro attempt
    simp [delete_groups_loop]
  | succ k ih =>
    intro attempt
    rw [delete_groups_loop]
    by_cases hs : attempt_success (envs attempt) names = true
    · rw [if_pos hs]
      show attempt ≤ attempt + (k + 1) - 1
      omega
    · rw [if_neg hs]
      have := ih (attempt + 1)
      omega

/-- Claim C8: security-group deletion makes at most 3 attempts, an attempt
succeeds only if every target group deletes without error, and when the
final attempt is unsuccessful the failure is reported to the operator
while the destroy action still finishes with exit code 0. -/
theorem C8_delete_groups (envs : Nat → DelEnv) (cluster_name : String) :
    (delete_security_groups envs cluster_name).1 ≤ 3 ∧
    (∀ k, attempt_success (envs k) (group_names cluster_name) = true →
      ∀ g ∈ targeted (envs k) (group_names cluster_name),
        (envs k).delete_ok g.name = true) ∧
    ((delete_security_groups envs cluster_name).2 = false →
      (destroy_groups_report envs cluster_name).1 ≠ [] ∧
      (destroy_groups_report envs cluster_name).2 = ProcOutcome.exit 0) := by
  refine ⟨delete_groups_loop_le envs _ 3 1, ?_, ?_⟩
  · intro k hk
    exact attempt_success_deletes (envs k) _ hk
  · intro hfail
    constructor
    · simp [destroy_groups_report, hfail]
    · rfl

/-- Witness for C8_delete_groups on an account whose only target group
never deletes: all three attempts fail, the failure is reported, and the
outcome is still a normal exit. -/
theorem C8_delete_groups_witness :
    (delete_security_groups exEnvs "c").1 ≤ 3 ∧
    (destroy_groups_report exEnvs "c").1 ≠ [] ∧
    (destroy_groups_report exEnvs "c").2 = ProcOutcome.exit 0 :=
  ⟨(C8_delete_groups exEnvs "c").1,
   (C8_delete_groups exEnvs "c").2.2 (by decide)⟩

/-- Claim C9 evaluated at its failing input: a 200 response whose body is
not valid JSON makes check_spark_cluster propagate ValueError instead of
returning the failure value -1, because the except clause of the source
catches only NameError, contradicting its own comment that any exception
should yield the error return; the non-200 half of the claim does hold,
as the third conjunct shows on a 500 response. -/
theorem C9_parse_failure_raises :
    check_spark_cluster (some ⟨200, JsonBody.parseError⟩) "m1.xlarge" 5 =
      Except.error PyExc.valueError ∧
    check_spark_cluster (some ⟨200, JsonBody.parseError⟩) "m1.xlarge" 5 ≠
      Except.ok (-1) ∧
    check_spark_cluster (some ⟨500, JsonBody.parseError⟩) "m1.xlarge" 5 =
      Except.ok (-1) :=
  ⟨rfl, fun h => Except.noConfusion h, rfl⟩

/-- Claim C10: for every instance type outside the built-in CPU table, the
per-node core count used by the health check is 2 with a warning printed
and no error raised, so the expected capacity compared against the status
endpoint is 2 times the worker count. -/
theorem C10_unknown_instance_type (instance_type : String)
    (h : cpus_by_instance.lookup instance_type = none) (slaves : Nat) :
    get_num_cpus instance_type = (2, true) ∧
    expected_num_cpus instance_type slaves = 2 * slaves := by
  unfold expected_num_cpus get_num_cpus
  rw [h]
  exact ⟨rfl, rfl⟩

/-- Witness for C10_unknown_instance_type at the unknown type m5.large. -/
theorem C10_unknown_instance_type_witness :
    get_num_cpus "m5.large" = (2, true) ∧
    expected_num_cpus "m5.large" 5 = 2 * 5 :=
  C10_unknown_instance_type "m5.large" (by decide) 5

end SparkEc2
